import Mathlib

/-!
# kube-oidc-proxy: the per-request pipeline of `pkg/proxy/proxy.go`

A shallow embedding of `Proxy.RoundTrip`, `Proxy.hasImpersonation`,
`Proxy.validateServiceAccountToken`, `Proxy.Error` and `New`, followed by the
properties of the request pipeline.

Modelling conventions.

* A Go `error` is a value with identity: the three package sentinels are
  compared with `==` in `Proxy.Error`, so an error built elsewhere with the
  same text is a different value. `GoError.other` stands for every such value.
* The collaborators are black boxes: the primary verifier
  (`oidcAuther.AuthenticateRequest`), the secondary validator
  (`saAuther.AuthenticateToken`), the upstream transport and the
  impersonating decorator of client-go are functions handed to the model.
* A method call on a nil interface or a nil pointer dereference is a runtime
  panic, modelled as `Except.error Panic.nilDereference`.
* `klog` calls are kept as a list of log entries, apart from what is
  written to the client.
-/

namespace KubeOIDCProxy

/-! ## Library constants and helpers used by the source -/

/-- Go `strings.ToLower`, given on the ASCII letters: the names of HTTP header
fields are ASCII tokens. No general statement below depends on how it acts
on other characters. -/
def strings.ToLower (s : String) : String :=
  String.mk (s.data.map Char.toLower)

/-- Go `strings.HasPrefix s pre`: `s` begins with `pre`. -/
def strings.HasPrefix (s pre : String) : Bool :=
  pre.data.isPrefixOf s.data

/-- client-go `transport.ImpersonateUserHeader`. -/
def transport.ImpersonateUserHeader : String := "Impersonate-User"

/-- client-go `transport.ImpersonateGroupHeader`. -/
def transport.ImpersonateGroupHeader : String := "Impersonate-Group"

/-- client-go `transport.ImpersonateUserExtraHeaderPrefix`. -/
def transport.ImpersonateUserExtraHeaderPrefix : String := "Impersonate-Extra-"

/-- apiserver `user.AllAuthenticated`, the reserved all-authenticated group. -/
def authuser.AllAuthenticated : String := "system:authenticated"

/-- Go `http.StatusUnauthorized`. -/
def http.StatusUnauthorized : Nat := 401

/-- Go `http.StatusForbidden`. -/
def http.StatusForbidden : Nat := 403

/-- Go `http.StatusInternalServerError`. -/
def http.StatusInternalServerError : Nat := 500

/-! ## Errors -/

/-- An `error` value. The first three are the package-level sentinels of
proxy.go (lines 23-25); `other text` is any error value that is none of the
three, carrying the text its `Error()` method returns. -/
inductive GoError where
  | errUnauthorized
  | errImpersonateHeader
  | errNoName
  | other (text : String)
  deriving DecidableEq, Repr

/-- The text of an error, as `%s` / `%v` print it. -/
def GoError.Error : GoError → String
  | .errUnauthorized => "Unauthorized"
  | .errImpersonateHeader => "Impersonate-User in header"
  | .errNoName => "No name in OIDC info"
  | .other text => text

/-- A runtime panic of the Go program. -/
inductive Panic where
  | nilDereference
  deriving DecidableEq, Repr

deriving instance DecidableEq for Except

/-! ## Requests, identities, transports -/

/-- Go `http.Header`: field name to list of values. -/
abbrev Header := List (String × List String)

/-- Go `Header.Get` for a key given in canonical form (the one call site
passes the literal `Authorization`): the first value stored under the key,
or the empty string. -/
def Header.Get (h : Header) (key : String) : String :=
  match h.lookup key with
  | some (v :: _) => v
  | _ => ""

/-- The parts of `*http.Request` the proxy reads or passes on. -/
structure Request where
  Method : String
  URL : String
  Header : Header
  Body : String
  RemoteAddr : String
  deriving DecidableEq, Repr

/-- Go `*http.Response`, as returned by a transport. -/
structure HttpResponse where
  StatusCode : Nat
  Body : String
  deriving DecidableEq, Repr

/-- The `user.Info` of an authenticated identity (`GetName`, `GetUID`,
`GetGroups`, `GetExtra`). -/
structure UserInfo where
  Name : String
  UID : String
  Groups : List String
  Extra : List (String × List String)
  deriving DecidableEq, Repr

/-- The `authenticator.Response` an authenticator returns. -/
structure Response where
  Audiences : List String
  User : UserInfo
  deriving DecidableEq, Repr

/-- The triple `(info, ok, err)` returned by `AuthenticateRequest` and
`AuthenticateToken`; `info = none` is a nil `*authenticator.Response`. -/
structure AuthResult where
  info : Option Response
  ok : Bool
  err : Option GoError
  deriving DecidableEq, Repr

/-- The pair `(*http.Response, error)` a round tripper returns. -/
structure TransportResult where
  resp : Option HttpResponse
  err : Option GoError
  deriving DecidableEq, Repr

/-- Go `http.RoundTripper`. -/
abbrev RoundTripper := Request → TransportResult

/-- client-go `transport.ImpersonationConfig`. -/
structure ImpersonationConfig where
  UserName : String
  Groups : List String
  Extra : List (String × List String)
  deriving DecidableEq, Repr

/-- The signature of client-go `transport.NewImpersonatingRoundTripper`. -/
abbrev Decorator := ImpersonationConfig → RoundTripper → RoundTripper

/-- A use of the upstream transport made by `RoundTrip`. -/
inductive UpstreamCall where
  /-- The call `p.clientTransport.RoundTrip(req)` of line 126. -/
  | plain (req : Request)
  /-- The call `rt.RoundTrip(req)` of line 177, with `rt` the impersonating round tripper built from `conf`. -/
  | impersonating (conf : ImpersonationConfig) (req : Request)
  deriving DecidableEq, Repr

/-- A `klog` call. -/
inductive LogEntry where
  /-- The calls `klog.Error` and `klog.Errorf`. -/
  | error (msg : String)
  /-- The call `klog.V(v).Infof`. -/
  | infoV (v : Nat) (msg : String)
  deriving DecidableEq, Repr

/-! ## The proxy -/

/-- The `rest.Config` of the upstream API server (only carried around). -/
structure RestConfig where
  Host : String
  deriving DecidableEq, Repr

/-- The `server.SecureServingInfo` of the listener (only carried around). -/
structure SecureServingInfo where
  Name : String
  deriving DecidableEq, Repr

/-- The struct `Proxy` (lines 33-43). A nil `saAuther` or `clientTransport`
is `none`. The verifier `oidcAuther` is the black box
`AuthenticateRequest(req)`, which returns its triple and leaves the request
as it is; `saAuther` is the black box `AuthenticateToken(ctx, token)`. -/
structure Proxy where
  oidcAuther : Request → AuthResult
  saAuther : Option (String → AuthResult)
  secureServingInfo : SecureServingInfo
  restConfig : RestConfig
  clientTransport : Option RoundTripper
  saTokenPassthrough : Bool

/-- The constructor `New` (lines 45-53): the composite literal names four
fields, the other two keep their zero value nil. -/
def New (restConfig : RestConfig) (oidcAuther : Request → AuthResult)
    (ssinfo : SecureServingInfo) (saTokenPassthrough : Bool) : Proxy :=
  { restConfig := restConfig
    oidcAuther := oidcAuther
    secureServingInfo := ssinfo
    saTokenPassthrough := saTokenPassthrough
    saAuther := none
    clientTransport := none }

/-- The package variable `impersonateUserHeader` (line 28). -/
def impersonateUserHeader : String := strings.ToLower transport.ImpersonateUserHeader

/-- The package variable `impersonateGroupHeader` (line 29). -/
def impersonateGroupHeader : String := strings.ToLower transport.ImpersonateGroupHeader

/-- The package variable `impersonateExtraHeader` (line 30). -/
def impersonateExtraHeader : String :=
  strings.ToLower transport.ImpersonateUserExtraHeaderPrefix

/-- The test applied to one header name in the loop of `hasImpersonation`
(lines 182-184). -/
def isImpersonationHeader (h : String) : Bool :=
  strings.ToLower h == impersonateUserHeader ||
    strings.ToLower h == impersonateGroupHeader ||
    strings.HasPrefix (strings.ToLower h) impersonateExtraHeader

/-- The method `Proxy.hasImpersonation` (lines 180-191): a loop over the
keys of the header map that returns true at the first impersonation name. The
receiver is not used. -/
def Proxy.hasImpersonation : Header → Bool
  | [] => false
  | (h, _) :: rest =>
    if isImpersonationHeader h then true else Proxy.hasImpersonation rest

/-- The method `Proxy.validateServiceAccountToken` (lines 193-210). The result
`Except.ok none` is a nil error; the call of `AuthenticateToken` on a nil
`saAuther` panics. -/
def Proxy.validateServiceAccountToken (p : Proxy) (req : Request) :
    Except Panic (Option GoError) :=
  let headerToken := req.Header.Get "Authorization"
  if headerToken.length == 0 then
    .ok (some (.other "not bearer token found in request header"))
  else
    match p.saAuther with
    | none => .error .nilDereference
    | some auther =>
      let r := auther headerToken
      match r.err with
      | some err =>
        .ok (some (.other
          ("failed to authenticate possible service account request token: " ++ err.Error)))
      | none =>
        if !r.ok then .ok (some (.other "token not authenticated"))
        else .ok none

/-- What one call of `RoundTrip` does: the value it returns (or a panic),
the uses it made of the upstream transport, and its log lines. -/
structure Outcome where
  result : Except Panic TransportResult
  upstream : List UpstreamCall
  log : List LogEntry

/-- The loop of lines 154-161: whether the all-authenticated group occurs. -/
def foundAllAuthenticated : List String → Bool
  | [] => false
  | elem :: rest =>
    if elem == authuser.AllAuthenticated then true else foundAllAuthenticated rest

/-- Lines 153-164: the groups handed to the impersonation config. -/
def ensureAllAuthenticated (groups : List String) : List String :=
  if !foundAllAuthenticated groups then groups ++ [authuser.AllAuthenticated] else groups

/-- The statement `return nil, err` with the log lines written before it. -/
def Outcome.reject (err : GoError) (log : List LogEntry) : Outcome :=
  { result := .ok { resp := none, err := some err }, upstream := [], log := log }

/-- A runtime panic before any transport was used. -/
def Outcome.panic : Outcome :=
  { result := .error .nilDereference, upstream := [], log := [] }

/-- The method `Proxy.RoundTrip` (lines 116-178). The argument
`NewImpersonatingRoundTripper` is the client-go decorator. With a nil
`clientTransport` the forwarding call panics (in the impersonating case inside
the decorator, on its nil delegate). -/
def Proxy.RoundTrip (NewImpersonatingRoundTripper : Decorator) (p : Proxy)
    (req : Request) : Outcome :=
  let a := p.oidcAuther req
  match a.err with
  | some err =>
    if p.saTokenPassthrough then
      match p.validateServiceAccountToken req with
      | .error _ => Outcome.panic
      | .ok none =>
        match p.clientTransport with
        | none => Outcome.panic
        | some t => { result := .ok (t req), upstream := [.plain req], log := [] }
      | .ok (some saErr) =>
        let err := GoError.other (err.Error ++ "\n" ++ saErr.Error)
        Outcome.reject .errUnauthorized
          [.error ("unable to authenticate the request due to an error (" ++
            req.RemoteAddr ++ "): " ++ err.Error)]
    else
      Outcome.reject .errUnauthorized
        [.error ("unable to authenticate the request due to an error (" ++
          req.RemoteAddr ++ "): " ++ err.Error)]
  | none =>
    if !a.ok then Outcome.reject .errUnauthorized []
    else if Proxy.hasImpersonation req.Header then Outcome.reject .errImpersonateHeader []
    else
      match a.info with
      | none => Outcome.panic
      | some info =>
        let user := info.User
        if user.Name == "" then Outcome.reject .errNoName []
        else
          let groups := ensureAllAuthenticated user.Groups
          let conf : ImpersonationConfig :=
            { UserName := user.Name, Groups := groups, Extra := user.Extra }
          match p.clientTransport with
          | none => Outcome.panic
          | some t =>
            { result := .ok (NewImpersonatingRoundTripper conf t req)
              upstream := [.impersonating conf req]
              log := [] }

/-- What `Proxy.Error` does: the status code and text of its one call of
`http.Error` on the response writer, and its log lines. -/
structure ErrorReply where
  code : Nat
  text : String
  log : List LogEntry
  deriving DecidableEq, Repr

/-- The method `Proxy.Error` (lines 212-245); `err = none` is a nil error. -/
def Proxy.Error (r : Request) (err : Option GoError) : ErrorReply :=
  match err with
  | none =>
    { code := http.StatusInternalServerError, text := ""
      log := [.error "error was called with no error"] }
  | some .errUnauthorized =>
    { code := http.StatusUnauthorized, text := "Unauthorized"
      log := [.infoV 2 ("unauthenticated user request " ++ r.RemoteAddr)] }
  | some .errImpersonateHeader =>
    { code := http.StatusForbidden
      text := "Impersonation requests are disabled when using kube-oidc-proxy"
      log := [.infoV 2 ("impersonation user request " ++ r.RemoteAddr)] }
  | some .errNoName =>
    { code := http.StatusForbidden
      text := "Username claim not available in OIDC Issuer response"
      log := [.infoV 2 ("no name available in oidc info " ++ r.RemoteAddr)] }
  | some (.other text) =>
    { code := http.StatusInternalServerError, text := ""
      log := [.error ("unknown error (" ++ r.RemoteAddr ++ "): " ++ text)] }

/-! ## Concrete inputs used to evaluate the model -/

namespace Example

/-- An upstream transport that answers every request with 200. -/
def upstream : RoundTripper :=
  fun req => { resp := some { StatusCode := 200, Body := "upstream:" ++ req.URL }, err := none }

/-- A stand-in for the impersonating decorator: it puts the impersonation
headers of the config in front of the header list and delegates. -/
def decorator : Decorator :=
  fun conf t req =>
    t { req with
        Header :=
          (transport.ImpersonateUserHeader, [conf.UserName]) ::
          (transport.ImpersonateGroupHeader, conf.Groups) ::
          (conf.Extra.map fun kv => (transport.ImpersonateUserExtraHeaderPrefix ++ kv.1, kv.2)) ++
          req.Header }

/-- A request with the given header list. -/
def request (header : Header) : Request :=
  { Method := "GET", URL := "/api/v1/pods", Header := header, Body := "",
    RemoteAddr := "10.0.0.7:4312" }

/-- A verifier that answers every request with the same triple. -/
def verifier (a : AuthResult) : Request → AuthResult :=
  fun _ => a

/-- A verified identity with the given name and groups. -/
def identity (name : String) (groups : List String) : Response :=
  { Audiences := [],
    User := { Name := name, UID := "", Groups := groups, Extra := [("scopes", ["openid"])] } }

/-- A proxy after `Run`: upstream transport set, with the given verifier,
secondary validator and passthrough flag. -/
def proxy (v : Request → AuthResult) (sa : Option (String → AuthResult))
    (passthrough : Bool) : Proxy :=
  { oidcAuther := v
    saAuther := sa
    secureServingInfo := { Name := "serving" }
    restConfig := { Host := "https://kubernetes.default" }
    clientTransport := some upstream
    saTokenPassthrough := passthrough }

/-- A secondary validator that accepts every token. -/
def acceptAll : String → AuthResult :=
  fun _ => { info := none, ok := true, err := none }

/-- A secondary validator that accepts no token. -/
def rejectAll : String → AuthResult :=
  fun _ => { info := none, ok := false, err := none }

/-- A secondary validator that accepts exactly the token `t`. -/
def acceptOnly (t : String) : String → AuthResult :=
  fun token => { info := none, ok := token == t, err := none }

/-- A verifier that acts as the bearer-token authenticator does in front of
a token authenticator failing with an error on every token: a request whose
Authorization value is not of the scheme bearer followed by a token gets
`ok = false` with a nil error, and a request presenting a bearer token gets
the error. -/
def bearerVerifier : Request → AuthResult :=
  fun req =>
    let auth := req.Header.Get "Authorization"
    if strings.HasPrefix (strings.ToLower auth) "bearer " && decide (7 < auth.length) then
      { info := none, ok := false, err := some (.other "oidc: malformed jwt") }
    else
      { info := none, ok := false, err := none }

end Example

/-! ## Helper lemmas -/

theorem hasImpersonation_iff (header : Header) :
    Proxy.hasImpersonation header = true ↔
      ∃ kv ∈ header, isImpersonationHeader kv.1 = true := by
  induction header with
  | nil => simp [Proxy.hasImpersonation]
  | cons x rest ih =>
    obtain ⟨h, vs⟩ := x
    by_cases hx : isImpersonationHeader h = true
    · simp [Proxy.hasImpersonation, hx]
    · simp [Proxy.hasImpersonation, hx, ih]

theorem isImpersonationHeader_iff (h : String) :
    isImpersonationHeader h = true ↔
      (strings.ToLower h = strings.ToLower transport.ImpersonateUserHeader ∨
        strings.ToLower h = strings.ToLower transport.ImpersonateGroupHeader ∨
        strings.HasPrefix (strings.ToLower h)
          (strings.ToLower transport.ImpersonateUserExtraHeaderPrefix) = true) := by
  simp [isImpersonationHeader, impersonateUserHeader, impersonateGroupHeader,
    impersonateExtraHeader, or_assoc]

theorem foundAllAuthenticated_iff (groups : List String) :
    foundAllAuthenticated groups = true ↔ authuser.AllAuthenticated ∈ groups := by
  induction groups with
  | nil => simp [foundAllAuthenticated]
  | cons g rest ih =>
    by_cases hg : g = authuser.AllAuthenticated
    · simp [foundAllAuthenticated, hg]
    · have hg2 : ¬ authuser.AllAuthenticated = g := fun h => hg h.symm
      simp [foundAllAuthenticated, hg, hg2, ih]

theorem ensureAllAuthenticated_eq (groups : List String) :
    ensureAllAuthenticated groups =
      if authuser.AllAuthenticated ∈ groups then groups
      else groups ++ [authuser.AllAuthenticated] := by
  unfold ensureAllAuthenticated
  by_cases h : authuser.AllAuthenticated ∈ groups
  · simp [h, (foundAllAuthenticated_iff groups).2 h]
  · have hf : foundAllAuthenticated groups = false := by
      cases hb : foundAllAuthenticated groups with
      | false => rfl
      | true => exact absurd ((foundAllAuthenticated_iff groups).1 hb) h
    simp [h, hf]

theorem mem_ensureAllAuthenticated (groups : List String) (g : String) :
    g ∈ ensureAllAuthenticated groups ↔ g ∈ groups ∨ g = authuser.AllAuthenticated := by
  rw [ensureAllAuthenticated_eq]
  by_cases h : authuser.AllAuthenticated ∈ groups
  · simp only [h, if_true]
    constructor
    · exact fun hg => Or.inl hg
    · rintro (hg | hg)
      · exact hg
      · exact hg ▸ h
  · simp [h]

theorem nodup_ensureAllAuthenticated (groups : List String) (hnd : groups.Nodup) :
    (ensureAllAuthenticated groups).Nodup := by
  rw [ensureAllAuthenticated_eq]
  by_cases h : authuser.AllAuthenticated ∈ groups
  · simpa [h] using hnd
  · simp only [h, if_false]
    rw [List.nodup_append]
    refine ⟨hnd, List.nodup_singleton _, ?_⟩
    intro a ha hb
    simp only [List.mem_singleton] at hb
    exact h (hb ▸ ha)

/-- The outcome of `RoundTrip` on the primary path once every check has
passed: one impersonating call with the config built from the identity. -/
theorem roundTrip_primary (d : Decorator) (p : Proxy) (req : Request) (info : Response)
    (t : RoundTripper)
    (hauth : p.oidcAuther req = { info := some info, ok := true, err := none })
    (hname : info.User.Name ≠ "")
    (hhdr : Proxy.hasImpersonation req.Header = false)
    (ht : p.clientTransport = some t) :
    (p.RoundTrip d req).result =
        .ok (d { UserName := info.User.Name
                 Groups := ensureAllAuthenticated info.User.Groups
                 Extra := info.User.Extra } t req) ∧
      (p.RoundTrip d req).upstream =
        [.impersonating { UserName := info.User.Name
                          Groups := ensureAllAuthenticated info.User.Groups
                          Extra := info.User.Extra } req] := by
  simp [Proxy.RoundTrip, hauth, hname, hhdr, ht]

/-- The fallback check does not read the primary verifier. -/
theorem validateServiceAccountToken_oidcAuther (p : Proxy) (v : Request → AuthResult)
    (req : Request) :
    Proxy.validateServiceAccountToken { p with oidcAuther := v } req =
      p.validateServiceAccountToken req := rfl

/-- The outcome of `RoundTrip` when the verifier returns `ok = false` with a
nil error. -/
theorem roundTrip_not_ok (d : Decorator) (p : Proxy) (req : Request)
    (info : Option Response)
    (hauth : p.oidcAuther req = { info := info, ok := false, err := none }) :
    (p.RoundTrip d req).result = .ok { resp := none, err := some .errUnauthorized } ∧
      (p.RoundTrip d req).upstream = [] := by
  constructor <;> simp [Proxy.RoundTrip, hauth, Outcome.reject]

/-- The outcome of `RoundTrip` when the verifier errors and the fallback
check returns an error. -/
theorem roundTrip_fallback_failed (d : Decorator) (p : Proxy) (req : Request)
    (info : Option Response) (ok : Bool) (e saErr : GoError)
    (hauth : p.oidcAuther req = { info := info, ok := ok, err := some e })
    (hon : p.saTokenPassthrough = true)
    (hsa : p.validateServiceAccountToken req = .ok (some saErr)) :
    (p.RoundTrip d req).result = .ok { resp := none, err := some .errUnauthorized } ∧
      (p.RoundTrip d req).upstream = [] := by
  constructor <;> simp [Proxy.RoundTrip, hauth, hon, hsa, Outcome.reject]

/-- The outcome of `RoundTrip` when the verifier errors and the fallback
check succeeds. -/
theorem roundTrip_fallback_ok (d : Decorator) (p : Proxy) (req : Request)
    (t : RoundTripper) (info : Option Response) (ok : Bool) (e : GoError)
    (hauth : p.oidcAuther req = { info := info, ok := ok, err := some e })
    (hon : p.saTokenPassthrough = true)
    (hsa : p.validateServiceAccountToken req = .ok none)
    (ht : p.clientTransport = some t) :
    (p.RoundTrip d req).result = .ok (t req) ∧
      (p.RoundTrip d req).upstream = [.plain req] ∧
      (p.RoundTrip d req).log = [] := by
  simp [Proxy.RoundTrip, hauth, hon, hsa, ht]

/-! ## The request pipeline -/

/-- C1: when primary verification succeeds (`ok = true`, nil error) and some
key of the header map equals `Impersonate-User` or `Impersonate-Group`, or
starts with `Impersonate-Extra-`, all compared case-insensitively, `RoundTrip`
returns `errImpersonateHeader` without using the upstream transport, and
`Proxy.Error` answers that error with 403. The identity is arbitrary (it may
have an empty name, or be absent): the header check comes first. -/
theorem roundTrip_rejects_client_impersonation (d : Decorator) (p : Proxy)
    (req r : Request) (info : Option Response) (kv : String × List String)
    (hauth : p.oidcAuther req = { info := info, ok := true, err := none })
    (hmem : kv ∈ req.Header)
    (hname : strings.ToLower kv.1 = strings.ToLower transport.ImpersonateUserHeader ∨
      strings.ToLower kv.1 = strings.ToLower transport.ImpersonateGroupHeader ∨
      strings.HasPrefix (strings.ToLower kv.1)
        (strings.ToLower transport.ImpersonateUserExtraHeaderPrefix) = true) :
    (p.RoundTrip d req).result = .ok { resp := none, err := some .errImpersonateHeader } ∧
      (p.RoundTrip d req).upstream = [] ∧
      (Proxy.Error r (some .errImpersonateHeader)).code = 403 := by
  have hh : Proxy.hasImpersonation req.Header = true :=
    (hasImpersonation_iff req.Header).2 ⟨kv, hmem, (isImpersonationHeader_iff kv.1).2 hname⟩
  refine ⟨?_, ?_, rfl⟩ <;> simp [Proxy.RoundTrip, hauth, hh, Outcome.reject]

/-- Witness of C1: an identity with an empty name and a header named
`IMPERSONATE-user`. -/
theorem roundTrip_rejects_client_impersonation_witness :
    ((Example.proxy (Example.verifier ⟨some (Example.identity "" []), true, none⟩) none
        false).RoundTrip Example.decorator
        (Example.request [("Accept", ["*/*"]), ("IMPERSONATE-user", ["root"])])).result =
        .ok { resp := none, err := some .errImpersonateHeader } ∧
      ((Example.proxy (Example.verifier ⟨some (Example.identity "" []), true, none⟩) none
        false).RoundTrip Example.decorator
        (Example.request [("Accept", ["*/*"]), ("IMPERSONATE-user", ["root"])])).upstream = [] ∧
      (Proxy.Error (Example.request []) (some .errImpersonateHeader)).code = 403 :=
  roundTrip_rejects_client_impersonation Example.decorator _ _ (Example.request [])
    (some (Example.identity "" [])) ("IMPERSONATE-user", ["root"]) rfl (by decide)
    (Or.inl (by decide))

/-- C2: when primary verification does not succeed (an error, or `ok = false`)
and no fallback succeeds (passthrough is off, or it is on and the fallback
check `validateServiceAccountToken` returns an error), `RoundTrip` returns
`errUnauthorized` without using the upstream transport, and `Proxy.Error`
answers that error with 401. -/
theorem roundTrip_unauthorized (d : Decorator) (p : Proxy) (req r : Request)
    (hfail : (p.oidcAuther req).err ≠ none ∨ (p.oidcAuther req).ok = false)
    (hfallback : p.saTokenPassthrough = false ∨
      (p.saTokenPassthrough = true ∧
        ∃ saErr, p.validateServiceAccountToken req = .ok (some saErr))) :
    (p.RoundTrip d req).result = .ok { resp := none, err := some .errUnauthorized } ∧
      (p.RoundTrip d req).upstream = [] ∧
      (Proxy.Error r (some .errUnauthorized)).code = 401 := by
  refine ⟨?_, ?_, rfl⟩
  all_goals
    unfold Proxy.RoundTrip
    cases herr : (p.oidcAuther req).err with
    | some e =>
      rcases hfallback with hoff | ⟨hon, saErr, hsa⟩
      · simp [herr, hoff, Outcome.reject]
      · simp [herr, hon, hsa, Outcome.reject]
    | none =>
      have hok : (p.oidcAuther req).ok = false := by
        rcases hfail with h | h
        · exact absurd herr h
        · exact h
      simp [herr, hok, Outcome.reject]

/-- Witness of C2: the verifier errors, passthrough is on and the secondary
validator rejects the token. -/
theorem roundTrip_unauthorized_witness :
    ((Example.proxy (Example.verifier ⟨none, false, some (.other "oidc: bad signature")⟩)
        (some Example.rejectAll) true).RoundTrip Example.decorator
        (Example.request [("Authorization", ["Bearer abc"])])).result =
        .ok { resp := none, err := some .errUnauthorized } ∧
      ((Example.proxy (Example.verifier ⟨none, false, some (.other "oidc: bad signature")⟩)
        (some Example.rejectAll) true).RoundTrip Example.decorator
        (Example.request [("Authorization", ["Bearer abc"])])).upstream = [] ∧
      (Proxy.Error (Example.request []) (some .errUnauthorized)).code = 401 :=
  roundTrip_unauthorized Example.decorator _ _ (Example.request [])
    (Or.inl (by decide))
    (Or.inr ⟨rfl, .other "token not authenticated", by decide⟩)

/-- Counterexample to C3 as stated: primary verification fails in the shape
`ok = false` with a nil error, passthrough is on and the secondary validator
accepts whatever it is given, yet the request is answered with
`errUnauthorized` and never reaches the upstream transport. -/
theorem passthrough_not_tried_without_error :
    (Example.verifier ⟨none, false, none⟩
        (Example.request [("Authorization", ["Basic c2E6czNjcjN0"])])).ok = false ∧
      (Example.proxy (Example.verifier ⟨none, false, none⟩) (some Example.acceptAll)
        true).validateServiceAccountToken
        (Example.request [("Authorization", ["Basic c2E6czNjcjN0"])]) = .ok none ∧
      ((Example.proxy (Example.verifier ⟨none, false, none⟩) (some Example.acceptAll)
        true).RoundTrip Example.decorator
        (Example.request [("Authorization", ["Basic c2E6czNjcjN0"])])).result =
        .ok { resp := none, err := some .errUnauthorized } ∧
      ((Example.proxy (Example.verifier ⟨none, false, none⟩) (some Example.acceptAll)
        true).RoundTrip Example.decorator
        (Example.request [("Authorization", ["Basic c2E6czNjcjN0"])])).upstream ≠
        [.plain (Example.request [("Authorization", ["Basic c2E6czNjcjN0"])])] := by
  decide

/-- C3, amended: when primary verification returns a non-nil error,
passthrough is on, the fallback check `validateServiceAccountToken` succeeds
and the upstream transport is set, `RoundTrip` hands the request it received,
unchanged, to the plain upstream transport (no impersonation check, no header
added or removed), returns what that transport returns, and logs nothing. -/
theorem roundTrip_passthrough (d : Decorator) (p : Proxy) (req : Request)
    (t : RoundTripper) (info : Option Response) (ok : Bool) (e : GoError)
    (hauth : p.oidcAuther req = { info := info, ok := ok, err := some e })
    (hon : p.saTokenPassthrough = true)
    (hsa : p.validateServiceAccountToken req = .ok none)
    (ht : p.clientTransport = some t) :
    (p.RoundTrip d req).result = .ok (t req) ∧
      (p.RoundTrip d req).upstream = [.plain req] ∧
      (p.RoundTrip d req).log = [] :=
  roundTrip_fallback_ok d p req t info ok e hauth hon hsa ht

/-- Witness of C3, amended: the verifier errors, the validator accepts, and
the request carries a client-supplied impersonation header. -/
theorem roundTrip_passthrough_witness :
    ((Example.proxy (Example.verifier ⟨none, false, some (.other "oidc: bad signature")⟩)
        (some Example.acceptAll) true).RoundTrip Example.decorator
        (Example.request
          [("Authorization", ["Bearer sa"]), ("Impersonate-User", ["root"])])).result =
        .ok (Example.upstream (Example.request
          [("Authorization", ["Bearer sa"]), ("Impersonate-User", ["root"])])) ∧
      ((Example.proxy (Example.verifier ⟨none, false, some (.other "oidc: bad signature")⟩)
        (some Example.acceptAll) true).RoundTrip Example.decorator
        (Example.request
          [("Authorization", ["Bearer sa"]), ("Impersonate-User", ["root"])])).upstream =
        [.plain (Example.request
          [("Authorization", ["Bearer sa"]), ("Impersonate-User", ["root"])])] ∧
      ((Example.proxy (Example.verifier ⟨none, false, some (.other "oidc: bad signature")⟩)
        (some Example.acceptAll) true).RoundTrip Example.decorator
        (Example.request
          [("Authorization", ["Bearer sa"]), ("Impersonate-User", ["root"])])).log = [] :=
  roundTrip_passthrough Example.decorator _ _ Example.upstream none false
    (.other "oidc: bad signature") rfl rfl (by decide) rfl

/-- C4: when primary verification succeeds with an identity whose name is not
empty, no header key is an impersonation name and the upstream transport is
set, `RoundTrip` makes exactly one call, through the impersonating round
tripper, and returns its result; the config of that round tripper has the
name of the identity as `UserName`, its extra mapping as `Extra`, and as
`Groups` the groups of the identity in their order, with the all-authenticated
group appended exactly when it is not among them, so that `Groups` has the
groups of the identity and the all-authenticated group as members and no
other. -/
theorem roundTrip_impersonates (d : Decorator) (p : Proxy) (req : Request)
    (info : Response) (t : RoundTripper)
    (hauth : p.oidcAuther req = { info := some info, ok := true, err := none })
    (hname : info.User.Name ≠ "")
    (hhdr : ∀ kv ∈ req.Header,
      ¬ (strings.ToLower kv.1 = strings.ToLower transport.ImpersonateUserHeader ∨
        strings.ToLower kv.1 = strings.ToLower transport.ImpersonateGroupHeader ∨
        strings.HasPrefix (strings.ToLower kv.1)
          (strings.ToLower transport.ImpersonateUserExtraHeaderPrefix) = true))
    (ht : p.clientTransport = some t) :
    ∃ conf : ImpersonationConfig,
      (p.RoundTrip d req).upstream = [.impersonating conf req] ∧
      (p.RoundTrip d req).result = .ok (d conf t req) ∧
      conf.UserName = info.User.Name ∧
      conf.Extra = info.User.Extra ∧
      conf.Groups =
        (if authuser.AllAuthenticated ∈ info.User.Groups then info.User.Groups
         else info.User.Groups ++ [authuser.AllAuthenticated]) ∧
      ∀ g, g ∈ conf.Groups ↔ g ∈ info.User.Groups ∨ g = authuser.AllAuthenticated := by
  have hh : Proxy.hasImpersonation req.Header = false := by
    cases hb : Proxy.hasImpersonation req.Header with
    | false => rfl
    | true =>
      obtain ⟨kv, hmem, hk⟩ := (hasImpersonation_iff req.Header).1 hb
      exact absurd ((isImpersonationHeader_iff kv.1).1 hk) (hhdr kv hmem)
  obtain ⟨hres, hup⟩ := roundTrip_primary d p req info t hauth hname hh ht
  exact ⟨_, hup, hres, rfl, rfl, ensureAllAuthenticated_eq _,
    fun g => mem_ensureAllAuthenticated _ g⟩

/-- Witness of C4: the identity alice with the one group dev is forwarded
as user alice with groups dev and system:authenticated. -/
theorem roundTrip_impersonates_witness :
    ∃ conf : ImpersonationConfig,
      ((Example.proxy (Example.verifier ⟨some (Example.identity "alice" ["dev"]), true, none⟩)
        none false).RoundTrip Example.decorator
        (Example.request [("Accept", ["*/*"])])).upstream =
        [.impersonating conf (Example.request [("Accept", ["*/*"])])] ∧
      ((Example.proxy (Example.verifier ⟨some (Example.identity "alice" ["dev"]), true, none⟩)
        none false).RoundTrip Example.decorator
        (Example.request [("Accept", ["*/*"])])).result =
        .ok (Example.decorator conf Example.upstream (Example.request [("Accept", ["*/*"])])) ∧
      conf.UserName = "alice" ∧
      conf.Extra = [("scopes", ["openid"])] ∧
      conf.Groups = ["dev", "system:authenticated"] ∧
      ∀ g, g ∈ conf.Groups ↔ g ∈ ["dev"] ∨ g = authuser.AllAuthenticated :=
  roundTrip_impersonates Example.decorator
    (Example.proxy (Example.verifier ⟨some (Example.identity "alice" ["dev"]), true, none⟩)
      none false)
    (Example.request [("Accept", ["*/*"])]) (Example.identity "alice" ["dev"])
    Example.upstream rfl (by decide) (by decide) rfl

/-- C5: when primary verification succeeds (`ok = true`, nil error) with an
identity whose name is the empty string, `RoundTrip` returns an error without
using the upstream transport, and `Proxy.Error` answers that error with 403.
The error is `errImpersonateHeader` when a header key is an impersonation name
and `errNoName` otherwise. -/
theorem roundTrip_rejects_empty_name (d : Decorator) (p : Proxy) (req r : Request)
    (info : Response)
    (hauth : p.oidcAuther req = { info := some info, ok := true, err := none })
    (hname : info.User.Name = "") :
    ∃ e : GoError,
      (p.RoundTrip d req).result = .ok { resp := none, err := some e } ∧
      (p.RoundTrip d req).upstream = [] ∧
      (Proxy.Error r (some e)).code = 403 ∧
      e = (if Proxy.hasImpersonation req.Header then GoError.errImpersonateHeader
           else GoError.errNoName) := by
  cases hh : Proxy.hasImpersonation req.Header with
  | true =>
    refine ⟨.errImpersonateHeader, ?_, ?_, rfl, by simp⟩ <;>
      simp [Proxy.RoundTrip, hauth, hh, Outcome.reject]
  | false =>
    refine ⟨.errNoName, ?_, ?_, rfl, by simp⟩ <;>
      simp [Proxy.RoundTrip, hauth, hh, hname, Outcome.reject]

/-- Witness of C5: a verified identity with an empty name and two groups. -/
theorem roundTrip_rejects_empty_name_witness :
    ∃ e : GoError,
      ((Example.proxy (Example.verifier ⟨some (Example.identity "" ["dev", "ops"]), true, none⟩)
        none false).RoundTrip Example.decorator
        (Example.request [("Accept", ["*/*"])])).result =
        .ok { resp := none, err := some e } ∧
      ((Example.proxy (Example.verifier ⟨some (Example.identity "" ["dev", "ops"]), true, none⟩)
        none false).RoundTrip Example.decorator
        (Example.request [("Accept", ["*/*"])])).upstream = [] ∧
      (Proxy.Error (Example.request []) (some e)).code = 403 ∧
      e = (if Proxy.hasImpersonation (Example.request [("Accept", ["*/*"])]).Header
           then GoError.errImpersonateHeader else GoError.errNoName) :=
  roundTrip_rejects_empty_name Example.decorator
    (Example.proxy (Example.verifier ⟨some (Example.identity "" ["dev", "ops"]), true, none⟩)
      none false)
    (Example.request [("Accept", ["*/*"])]) (Example.request [])
    (Example.identity "" ["dev", "ops"]) rfl rfl

/-- Counterexample to C6 as stated: one proxy with passthrough on and a
secondary validator that accepts whatever it is given. A request with a
Basic credential gets the verifier answer `ok = false` with a nil error; the
fallback check would succeed on it, yet `RoundTrip` returns `errUnauthorized`
with no upstream call, and does so with a nil validator too, so the
validator is not consulted. A request with a bearer token gets a verifier
error and is forwarded through the plain transport. The two failure shapes
are not treated alike. -/
theorem failure_shapes_differ :
    Example.bearerVerifier (Example.request [("Authorization", ["Basic c2E6czNjcjN0"])]) =
        { info := none, ok := false, err := none } ∧
      (Example.proxy Example.bearerVerifier (some Example.acceptAll)
        true).validateServiceAccountToken
        (Example.request [("Authorization", ["Basic c2E6czNjcjN0"])]) = .ok none ∧
      ((Example.proxy Example.bearerVerifier (some Example.acceptAll) true).RoundTrip
        Example.decorator
        (Example.request [("Authorization", ["Basic c2E6czNjcjN0"])])).result =
        .ok { resp := none, err := some .errUnauthorized } ∧
      ((Example.proxy Example.bearerVerifier (some Example.acceptAll) true).RoundTrip
        Example.decorator
        (Example.request [("Authorization", ["Basic c2E6czNjcjN0"])])).upstream = [] ∧
      ((Example.proxy Example.bearerVerifier none true).RoundTrip Example.decorator
        (Example.request [("Authorization", ["Basic c2E6czNjcjN0"])])).result =
        .ok { resp := none, err := some .errUnauthorized } ∧
      Example.bearerVerifier (Example.request [("Authorization", ["Bearer sa-token"])]) =
        { info := none, ok := false, err := some (.other "oidc: malformed jwt") } ∧
      ((Example.proxy Example.bearerVerifier (some Example.acceptAll) true).RoundTrip
        Example.decorator
        (Example.request [("Authorization", ["Bearer sa-token"])])).upstream =
        [.plain (Example.request [("Authorization", ["Bearer sa-token"])])] ∧
      ((Example.proxy Example.bearerVerifier (some Example.acceptAll) true).RoundTrip
        Example.decorator
        (Example.request [("Authorization", ["Bearer sa-token"])])).result =
        .ok (Example.upstream (Example.request [("Authorization", ["Bearer sa-token"])])) := by
  decide

/-- C6, amended: with passthrough on and the upstream transport set, the
fallback is tried only after a verifier error. On a request for which the
verifier returns `ok = false` with a nil error, `RoundTrip` returns
`errUnauthorized` with no upstream call whatever the secondary validator is
(even a nil one, so it is not consulted). On a request for which the verifier
returns an error, the outcome follows the fallback check: when the check
returns an error the outcome is again `errUnauthorized` with no upstream call,
and when it succeeds the request is forwarded through the plain transport and
the answer of the transport is returned. -/
theorem fallback_only_after_error (d : Decorator) (p : Proxy) (reqFalse reqErr : Request)
    (vFalse vErr : Request → AuthResult) (info₁ info₂ : Option Response) (ok₂ : Bool)
    (e : GoError) (checked : Option GoError) (t : RoundTripper)
    (hon : p.saTokenPassthrough = true)
    (hFalse : vFalse reqFalse = { info := info₁, ok := false, err := none })
    (hErr : vErr reqErr = { info := info₂, ok := ok₂, err := some e })
    (hsa : p.validateServiceAccountToken reqErr = .ok checked)
    (ht : p.clientTransport = some t) :
    (∀ sa : Option (String → AuthResult),
        (Proxy.RoundTrip d { p with oidcAuther := vFalse, saAuther := sa } reqFalse).result =
            .ok { resp := none, err := some .errUnauthorized } ∧
          (Proxy.RoundTrip d { p with oidcAuther := vFalse, saAuther := sa } reqFalse).upstream
            = []) ∧
      (Proxy.RoundTrip d { p with oidcAuther := vErr } reqErr).result =
        (match checked with
          | none => .ok (t reqErr)
          | some _ => .ok { resp := none, err := some .errUnauthorized }) ∧
      (Proxy.RoundTrip d { p with oidcAuther := vErr } reqErr).upstream =
        (match checked with
          | none => [.plain reqErr]
          | some _ => []) := by
  refine ⟨?_, ?_⟩
  · intro sa
    exact roundTrip_not_ok d { p with oidcAuther := vFalse, saAuther := sa } reqFalse info₁
      hFalse
  · cases checked with
    | none =>
      have h := roundTrip_fallback_ok d { p with oidcAuther := vErr } reqErr t info₂ ok₂ e
        hErr hon hsa ht
      exact ⟨h.1, h.2.1⟩
    | some saErr =>
      exact roundTrip_fallback_failed d { p with oidcAuther := vErr } reqErr info₂ ok₂ e
        saErr hErr hon hsa

/-- Witness of C6, amended: one verifier, a validator that accepts the raw
value `Bearer sa-token`, a request with a Basic credential (verifier answer
`ok = false`, nil error) and a request with that bearer token (verifier
error), which is forwarded. -/
theorem fallback_only_after_error_witness :
    (∀ sa : Option (String → AuthResult),
        (Proxy.RoundTrip Example.decorator
          { Example.proxy Example.bearerVerifier
              (some (Example.acceptOnly "Bearer sa-token")) true with
            oidcAuther := Example.bearerVerifier, saAuther := sa }
          (Example.request [("Authorization", ["Basic c2E6czNjcjN0"])])).result =
            .ok { resp := none, err := some .errUnauthorized } ∧
          (Proxy.RoundTrip Example.decorator
            { Example.proxy Example.bearerVerifier
                (some (Example.acceptOnly "Bearer sa-token")) true with
              oidcAuther := Example.bearerVerifier, saAuther := sa }
            (Example.request [("Authorization", ["Basic c2E6czNjcjN0"])])).upstream = []) ∧
      (Proxy.RoundTrip Example.decorator
        { Example.proxy Example.bearerVerifier
            (some (Example.acceptOnly "Bearer sa-token")) true with
          oidcAuther := Example.bearerVerifier }
        (Example.request [("Authorization", ["Bearer sa-token"])])).result =
        .ok (Example.upstream (Example.request [("Authorization", ["Bearer sa-token"])])) ∧
      (Proxy.RoundTrip Example.decorator
        { Example.proxy Example.bearerVerifier
            (some (Example.acceptOnly "Bearer sa-token")) true with
          oidcAuther := Example.bearerVerifier }
        (Example.request [("Authorization", ["Bearer sa-token"])])).upstream =
        [.plain (Example.request [("Authorization", ["Bearer sa-token"])])] :=
  fallback_only_after_error Example.decorator
    (Example.proxy Example.bearerVerifier (some (Example.acceptOnly "Bearer sa-token")) true)
    (Example.request [("Authorization", ["Basic c2E6czNjcjN0"])])
    (Example.request [("Authorization", ["Bearer sa-token"])])
    Example.bearerVerifier Example.bearerVerifier none none false
    (.other "oidc: malformed jwt") none Example.upstream rfl (by decide) (by decide)
    (by decide) rfl

/-- C7: `Proxy.Error` answers every error value, and what it writes to the
client depends only on which kind of value it is: `errUnauthorized` gives 401
with the text Unauthorized, `errImpersonateHeader` gives 403, `errNoName`
gives 403, and a nil error or any other error gives 500 with an empty text.
Two errors that are not sentinels, whatever their texts and whatever the
request, are answered with the same status and text, although their log lines
carry the error text. -/
theorem error_classification :
    (∀ r : Request,
      (Proxy.Error r (some .errUnauthorized)).code = 401 ∧
      (Proxy.Error r (some .errUnauthorized)).text = "Unauthorized" ∧
      (Proxy.Error r (some .errImpersonateHeader)).code = 403 ∧
      (Proxy.Error r (some .errNoName)).code = 403 ∧
      (Proxy.Error r none).code = 500 ∧
      (Proxy.Error r none).text = "" ∧
      ∀ text : String,
        (Proxy.Error r (some (.other text))).code = 500 ∧
        (Proxy.Error r (some (.other text))).text = "") ∧
      (∀ (r₁ r₂ : Request) (e : Option GoError),
        (Proxy.Error r₁ e).code = (Proxy.Error r₂ e).code ∧
        (Proxy.Error r₁ e).text = (Proxy.Error r₂ e).text) ∧
      (∀ (r₁ r₂ : Request) (text₁ text₂ : String),
        (Proxy.Error r₁ (some (.other text₁))).code =
          (Proxy.Error r₂ (some (.other text₂))).code ∧
        (Proxy.Error r₁ (some (.other text₁))).text =
          (Proxy.Error r₂ (some (.other text₂))).text ∧
        (Proxy.Error r₁ (some (.other text₁))).code = (Proxy.Error r₂ none).code ∧
        (Proxy.Error r₁ (some (.other text₁))).text = (Proxy.Error r₂ none).text ∧
        (Proxy.Error r₁ (some (.other text₁))).log =
          [.error ("unknown error (" ++ r₁.RemoteAddr ++ "): " ++ text₁)]) := by
  refine ⟨fun r => ⟨rfl, rfl, rfl, rfl, rfl, rfl, fun _ => ⟨rfl, rfl⟩⟩, ?_,
    fun _ _ _ _ => ⟨rfl, rfl, rfl, rfl, rfl⟩⟩
  intro r₁ r₂ e
  cases e with
  | none => exact ⟨rfl, rfl⟩
  | some e => cases e <;> exact ⟨rfl, rfl⟩

/-- Counterexample to C8 as stated: a source group list that holds the
all-authenticated group twice is passed on as it is, so the impersonation
config holds that group twice and its group list has a duplicate. -/
theorem groups_keep_duplicates :
    ((Example.proxy
        (Example.verifier
          ⟨some (Example.identity "alice" ["system:authenticated", "system:authenticated"]),
            true, none⟩)
        none false).RoundTrip Example.decorator (Example.request [])).upstream =
        [.impersonating
          { UserName := "alice"
            Groups := ["system:authenticated", "system:authenticated"]
            Extra := [("scopes", ["openid"])] }
          (Example.request [])] ∧
      List.count authuser.AllAuthenticated
        ["system:authenticated", "system:authenticated"] = 2 ∧
      ¬ List.Nodup ["system:authenticated", "system:authenticated"] := by
  decide

/-- C8, amended: for a verified identity with a non-empty name that is
forwarded, the `Groups` of the impersonation config always contain the
all-authenticated group; when the source group list has no duplicate entry
(whether or not it contains that group), `Groups` contain it exactly once and
have no duplicate entry. -/
theorem groups_marker_once (d : Decorator) (p : Proxy) (req : Request)
    (info : Response) (t : RoundTripper)
    (hauth : p.oidcAuther req = { info := some info, ok := true, err := none })
    (hname : info.User.Name ≠ "")
    (hhdr : Proxy.hasImpersonation req.Header = false)
    (ht : p.clientTransport = some t) :
    ∃ conf : ImpersonationConfig,
      (p.RoundTrip d req).upstream = [.impersonating conf req] ∧
      authuser.AllAuthenticated ∈ conf.Groups ∧
      (info.User.Groups.Nodup →
        conf.Groups.count authuser.AllAuthenticated = 1 ∧ conf.Groups.Nodup) := by
  obtain ⟨_, hup⟩ := roundTrip_primary d p req info t hauth hname hhdr ht
  refine ⟨_, hup, ?_, ?_⟩
  · exact (mem_ensureAllAuthenticated _ _).2 (Or.inr rfl)
  · intro hnd
    have hnd2 := nodup_ensureAllAuthenticated info.User.Groups hnd
    exact ⟨List.count_eq_one_of_mem hnd2 ((mem_ensureAllAuthenticated _ _).2 (Or.inr rfl)),
      hnd2⟩

/-- Witness of C8, amended: a duplicate-free source list that already holds
the all-authenticated group. -/
theorem groups_marker_once_witness :
    ∃ conf : ImpersonationConfig,
      ((Example.proxy
        (Example.verifier
          ⟨some (Example.identity "bob" ["system:authenticated", "dev"]), true, none⟩)
        none false).RoundTrip Example.decorator (Example.request [])).upstream =
        [.impersonating conf (Example.request [])] ∧
      authuser.AllAuthenticated ∈ conf.Groups ∧
      ((Example.identity "bob" ["system:authenticated", "dev"]).User.Groups.Nodup →
        conf.Groups.count authuser.AllAuthenticated = 1 ∧ conf.Groups.Nodup) :=
  groups_marker_once Example.decorator
    (Example.proxy
      (Example.verifier
        ⟨some (Example.identity "bob" ["system:authenticated", "dev"]), true, none⟩)
      none false)
    (Example.request []) (Example.identity "bob" ["system:authenticated", "dev"])
    Example.upstream rfl (by decide) (by decide) rfl

/-- C9, the code at the failing input: the header value is `Bearer t` and
the secondary validator accepts exactly the token `t`; the fallback check
hands the validator the whole header value, so the validator answers no and
the check returns the error of line 206, although the validator accepts the
bearer token of that header. -/
theorem validateServiceAccountToken_passes_raw_header :
    (Example.acceptOnly "t" "t").ok = true ∧
      (Example.acceptOnly "t" "Bearer t").ok = false ∧
      (Example.proxy (Example.verifier ⟨none, false, some (.other "oidc: bad signature")⟩)
        (some (Example.acceptOnly "t")) true).validateServiceAccountToken
        (Example.request [("Authorization", ["Bearer t"])]) =
        .ok (some (.other "token not authenticated")) := by
  decide

/-- C10, the code at the failing input: `New` leaves `saAuther` nil whatever
its arguments, so a proxy made by `New` with passthrough on, with its upstream
transport set afterwards, panics in `RoundTrip` on a request with a non-empty
Authorization header whose primary verification errors. -/
theorem new_leaves_saAuther_nil :
    (∀ (restConfig : RestConfig) (oidcAuther : Request → AuthResult)
        (ssinfo : SecureServingInfo) (saTokenPassthrough : Bool),
        (New restConfig oidcAuther ssinfo saTokenPassthrough).saAuther.isNone = true) ∧
      (Proxy.RoundTrip Example.decorator
        { New { Host := "https://kubernetes.default" }
            (Example.verifier ⟨none, false, some (.other "oidc: bad signature")⟩)
            { Name := "serving" } true with
          clientTransport := some Example.upstream }
        (Example.request [("Authorization", ["Bearer abc"])])).result =
        .error .nilDereference := by
  refine ⟨fun _ _ _ _ => rfl, ?_⟩
  decide

end KubeOIDCProxy
